import Mathlib

/-!
Verification of the react-native-lighthouse scoring engine and lifecycle tracker.

This file gives a shallow embedding in Lean 4 of the scoring functions
(`calculateMetricScore`, `getScoreCategory`, `calculatePerformanceScore` from
`scoring.ts`) and of the stateful lifecycle tracker (`usePerformanceMeasurement`
from `usePerformanceMeasurement.ts`), and proves the specification claims
about them.

Modelling choices:
* JavaScript numbers are modelled by `ℚ` (the arithmetic in the claims is exact
  real arithmetic; all values involved are rationals).
* `Math.round` is modelled by `jsRound q = ⌊q + 1/2⌋` (JS rounds half toward +∞).
* `x ?? y` (nullish coalescing) is `Option.getD` / `Option` matching.
* `x || y` on numbers (falsy coalescing: both `undefined` and `0` are falsy)
  is modelled by `jsOrNum` / `jsOrQ`; on object references (always truthy when
  present) by `jsOrF`.
* The mutable refs of the React hook become an explicit `TrackerState` record; the
  lifecycle callbacks (`useEffect` first-frame microtask, `markInteractive`,
  the PanResponder gesture handler together with its microtask, the FID
  timeout) become pure functions `TrackerState → ... → TrackerState × List
  CallbackEvent`, serialized as the single-threaded event loop serializes
  them, and traces are folds of a step function over event lists.
-/

/-- JavaScript `Math.round`: round half toward positive infinity. -/
def jsRound (q : ℚ) : ℤ := Rat.floor (q + 1/2)

/-- `jsRound` agrees with the mathematical floor of `q + 1/2`. -/
theorem jsRound_eq_floor (q : ℚ) : jsRound q = ⌊q + 1/2⌋ :=
  (Rat.floor_def' _).trans Rat.floor_def.symm

/-- A `{ good, poor }` threshold pair (from `types.ts` / `PerformanceThresholds`). -/
structure MetricThresholds where
  good : ℚ
  poor : ℚ
deriving Repr, DecidableEq

/-- `PerformanceThresholds` from `types.ts`: one threshold pair per metric. -/
structure PerformanceThresholds where
  ttff : MetricThresholds
  tti : MetricThresholds
  fid : MetricThresholds
deriving Repr, DecidableEq

/-- `MetricWeights` from `types.ts`. -/
structure MetricWeights where
  ttff : ℚ
  tti : ℚ
  fid : ℚ
deriving Repr, DecidableEq

/-- `DEFAULT_THRESHOLDS` from `scoring.ts`. -/
def DEFAULT_THRESHOLDS : PerformanceThresholds :=
  { ttff := { good := 300, poor := 800 }
    tti := { good := 500, poor := 1500 }
    fid := { good := 50, poor := 150 } }

/-- `DEFAULT_WEIGHTS` from `scoring.ts`. -/
def DEFAULT_WEIGHTS : MetricWeights :=
  { ttff := 25/100, tti := 45/100, fid := 30/100 }

/-- `calculateMetricScore` from `scoring.ts`:
if `value <= good` return 100; if `value >= poor` return 0; otherwise
`Math.round(100 - ((value - good) / (poor - good)) * 100)`. -/
def calculateMetricScore (value : ℚ) (thresholds : MetricThresholds) : ℚ :=
  if value ≤ thresholds.good then 100
  else if thresholds.poor ≤ value then 0
  else
    ((jsRound (100 - (value - thresholds.good) / (thresholds.poor - thresholds.good) * 100) : ℤ) : ℚ)

/-- The four score categories of `getScoreCategory`. -/
inductive Category where
  | excellent
  | good
  | needsImprovement
  | poor
deriving Repr, DecidableEq

/-- `getScoreCategory` from `scoring.ts`. -/
def getScoreCategory (score : ℚ) : Category :=
  if 90 ≤ score then .excellent
  else if 75 ≤ score then .good
  else if 50 ≤ score then .needsImprovement
  else .poor

/-- The input-type union of `FirstInputDelayMetrics.inputType` in `types.ts`. -/
inductive InputType where
  | touch
  | press
  | scroll
  | other
deriving Repr, DecidableEq

/-- `FirstInputDelayMetrics` from `types.ts`. -/
structure FirstInputDelayMetrics where
  firstInputDelayMs : ℚ
  firstInputTimeMs : ℚ
  inputProcessingStartTimeMs : ℚ
  inputType : InputType
deriving Repr, DecidableEq

/-- `PerformanceMetrics` from `types.ts` (optional fields become `Option`). -/
structure PerformanceMetrics where
  timeToFirstFrameMs : ℚ
  timeToInteractiveMs : Option ℚ := none
  firstInputDelay : Option FirstInputDelayMetrics := none
  mountStartTimeMs : ℚ
  firstFrameTimeMs : ℚ
  interactiveTimeMs : Option ℚ := none
deriving Repr, DecidableEq

/-- The `breakdown` field of `PerformanceScore`. -/
structure ScoreBreakdown where
  ttff : ℚ
  tti : ℚ
  fid : ℚ
deriving Repr, DecidableEq

/-- `PerformanceScore` from `types.ts`. -/
structure PerformanceScore where
  overall : ℚ
  breakdown : ScoreBreakdown
  category : Category
deriving Repr, DecidableEq

/-- `calculatePerformanceScore` from `scoring.ts`. `??` is nullish coalescing. -/
def calculatePerformanceScore (metrics : PerformanceMetrics)
    (thresholds : PerformanceThresholds := DEFAULT_THRESHOLDS)
    (weights : MetricWeights := DEFAULT_WEIGHTS) : PerformanceScore :=
  let ttffScore := calculateMetricScore metrics.timeToFirstFrameMs thresholds.ttff
  let ttiValue := metrics.timeToInteractiveMs.getD metrics.timeToFirstFrameMs
  let ttiScore := calculateMetricScore ttiValue thresholds.tti
  let fidValue := (metrics.firstInputDelay.map (·.firstInputDelayMs)).getD 0
  let fidScore := calculateMetricScore fidValue thresholds.fid
  let overall : ℚ :=
    ((jsRound (ttffScore * weights.ttff + ttiScore * weights.tti + fidScore * weights.fid) : ℤ) : ℚ)
  { overall := overall
    breakdown := { ttff := ttffScore, tti := ttiScore, fid := fidScore }
    category := getScoreCategory overall }

/-- If `q` is nonnegative then so is `jsRound q`. -/
theorem jsRound_nonneg {q : ℚ} (h : 0 ≤ q) : 0 ≤ jsRound q := by
  rw [jsRound_eq_floor]
  exact Int.le_floor.2 (by push_cast; linarith)

/-- `jsRound q ≤ n` whenever `q ≤ n`. -/
theorem jsRound_le {q : ℚ} {n : ℤ} (h : q ≤ (n : ℚ)) : jsRound q ≤ n := by
  rw [jsRound_eq_floor]
  exact Int.lt_add_one_iff.1 (Int.floor_lt.2 (by push_cast; linarith))

/-- `jsRound` is monotone. -/
theorem jsRound_mono {a b : ℚ} (h : a ≤ b) : jsRound a ≤ jsRound b := by
  rw [jsRound_eq_floor, jsRound_eq_floor]
  exact Int.floor_le_floor (by linarith)

/-- The metric score is never negative, for arbitrary thresholds. -/
theorem calculateMetricScore_nonneg (v : ℚ) (t : MetricThresholds) :
    0 ≤ calculateMetricScore v t := by
  unfold calculateMetricScore
  split
  · norm_num
  · split
    · norm_num
    · rename_i h1 h2
      push_neg at h1 h2
      have hr : 0 < t.poor - t.good := by linarith
      have hd : (v - t.good) / (t.poor - t.good) < 1 := (div_lt_one hr).2 (by linarith)
      exact_mod_cast jsRound_nonneg (by linarith)

/-- The metric score never exceeds 100, for arbitrary thresholds. -/
theorem calculateMetricScore_le_100 (v : ℚ) (t : MetricThresholds) :
    calculateMetricScore v t ≤ 100 := by
  unfold calculateMetricScore
  split
  · norm_num
  · split
    · norm_num
    · rename_i h1 h2
      push_neg at h1 h2
      have hr : 0 < t.poor - t.good := by linarith
      have hd : 0 < (v - t.good) / (t.poor - t.good) := div_pos (by linarith) hr
      have : jsRound (100 - (v - t.good) / (t.poor - t.good) * 100) ≤ (100 : ℤ) :=
        jsRound_le (by push_cast; linarith)
      exact_mod_cast this

/-- The metric score is always an integer (cast into `ℚ`). -/
theorem calculateMetricScore_isInt (v : ℚ) (t : MetricThresholds) :
    ∃ k : ℤ, calculateMetricScore v t = (k : ℚ) := by
  unfold calculateMetricScore
  split
  · exact ⟨100, by norm_num⟩
  · split
    · exact ⟨0, by norm_num⟩
    · exact ⟨_, rfl⟩

/-- Claim C1: with `good < poor`, `calculateMetricScore` returns 100 for
`value ≤ good`, 0 for `value ≥ poor`, and otherwise
`round(100 - ((value - good) / (poor - good)) * 100)`. -/
theorem C1_calculateMetricScore_formula (value : ℚ) (t : MetricThresholds)
    (h : t.good < t.poor) :
    (value ≤ t.good → calculateMetricScore value t = 100) ∧
    (t.poor ≤ value → calculateMetricScore value t = 0) ∧
    (t.good < value → value < t.poor →
      calculateMetricScore value t =
        ((jsRound (100 - (value - t.good) / (t.poor - t.good) * 100) : ℤ) : ℚ)) := by
  refine ⟨fun hv => by simp [calculateMetricScore, hv], fun hv => ?_, fun h1 h2 => ?_⟩
  · have hg : ¬value ≤ t.good := by push_neg; linarith
    simp [calculateMetricScore, hg, hv]
  · simp [calculateMetricScore, not_le.2 h1, not_le.2 h2]

/-- Witness for C1 at `value = 550`, thresholds `{good := 300, poor := 800}`. -/
theorem C1_witness :
    calculateMetricScore 550 { good := 300, poor := 800 } =
      ((jsRound (100 - ((550 : ℚ) - 300) / (800 - 300) * 100) : ℤ) : ℚ) :=
  (C1_calculateMetricScore_formula 550 { good := 300, poor := 800 }
    (by norm_num)).2.2 (by norm_num) (by norm_num)

/-- Claim C4: `calculateMetricScore` is total: the result is always an integer
in `[0, 100]` for arbitrary values and thresholds (including `poor < good` and
negative values), and when `good = poor` the interpolation branch (the only
place a division occurs) is unreachable and the function is the step function
`value ≤ good → 100`, otherwise `0`. -/
theorem C4_calculateMetricScore_total (value : ℚ) (t : MetricThresholds) :
    (0 ≤ calculateMetricScore value t ∧ calculateMetricScore value t ≤ 100 ∧
      ∃ k : ℤ, calculateMetricScore value t = (k : ℚ)) ∧
    (t.good = t.poor →
      calculateMetricScore value t = if value ≤ t.good then 100 else 0) := by
  refine ⟨⟨calculateMetricScore_nonneg value t, calculateMetricScore_le_100 value t,
    calculateMetricScore_isInt value t⟩, fun hgp => ?_⟩
  by_cases hv : value ≤ t.good
  · simp [calculateMetricScore, hv]
  · have hp : t.poor ≤ value := by rw [← hgp]; push_neg at hv; linarith
    simp [calculateMetricScore, hv, hp]

/-- Witness for C4 at `value = 400`, degenerate thresholds `good = poor = 300`. -/
theorem C4_witness :
    (0 ≤ calculateMetricScore 400 { good := 300, poor := 300 } ∧
      calculateMetricScore 400 { good := 300, poor := 300 } ≤ 100 ∧
      ∃ k : ℤ, calculateMetricScore 400 { good := 300, poor := 300 } = (k : ℚ)) ∧
    calculateMetricScore 400 { good := 300, poor := 300 } =
      if (400 : ℚ) ≤ 300 then 100 else 0 :=
  ⟨(C4_calculateMetricScore_total 400 { good := 300, poor := 300 }).1,
   (C4_calculateMetricScore_total 400 { good := 300, poor := 300 }).2 rfl⟩

/-- Claim C5: `getScoreCategory` maps `score ≥ 90` to excellent,
`75 ≤ score < 90` to good, `50 ≤ score < 75` to needs-improvement, anything
else to poor (each band inclusive on its lower bound), with the boundary
values 90, 89, 75, 74, 50, 49 landing as listed. -/
theorem C5_getScoreCategory_bands (score : ℚ) :
    (90 ≤ score → getScoreCategory score = .excellent) ∧
    (75 ≤ score → score < 90 → getScoreCategory score = .good) ∧
    (50 ≤ score → score < 75 → getScoreCategory score = .needsImprovement) ∧
    (score < 50 → getScoreCategory score = .poor) ∧
    getScoreCategory 90 = .excellent ∧ getScoreCategory 89 = .good ∧
    getScoreCategory 75 = .good ∧ getScoreCategory 74 = .needsImprovement ∧
    getScoreCategory 50 = .needsImprovement ∧ getScoreCategory 49 = .poor := by
  refine ⟨fun h => by simp [getScoreCategory, h], fun h1 h2 => ?_, fun h1 h2 => ?_,
    fun h => ?_, ?_, ?_, ?_, ?_, ?_, ?_⟩
  · simp [getScoreCategory, h1, not_le.2 h2]
  · have : ¬(90 : ℚ) ≤ score := by push_neg; linarith
    simp [getScoreCategory, h1, this, not_le.2 h2]
  · have h90 : ¬(90 : ℚ) ≤ score := by push_neg; linarith
    have h75 : ¬(75 : ℚ) ≤ score := by push_neg; linarith
    simp [getScoreCategory, h90, h75, not_le.2 h]
  all_goals norm_num [getScoreCategory]

/-- Witness for C5 at `score = 80`. -/
theorem C5_witness : getScoreCategory 80 = .good :=
  (C5_getScoreCategory_bands 80).2.1 (by norm_num) (by norm_num)

/-- Claim C2: in `calculatePerformanceScore` the TTI value defaults to
`timeToFirstFrameMs` when `timeToInteractiveMs` is absent, the FID value
defaults to 0 when `firstInputDelay` is absent, and under the default
thresholds any metrics lacking `firstInputDelay` gets FID sub-score 100. -/
theorem C2_calculatePerformanceScore_defaults (m : PerformanceMetrics)
    (th : PerformanceThresholds) (w : MetricWeights) :
    (m.timeToInteractiveMs = none →
      (calculatePerformanceScore m th w).breakdown.tti =
        calculateMetricScore m.timeToFirstFrameMs th.tti) ∧
    (m.firstInputDelay = none →
      (calculatePerformanceScore m th w).breakdown.fid =
        calculateMetricScore 0 th.fid) ∧
    (m.firstInputDelay = none →
      (calculatePerformanceScore m).breakdown.fid = 100) := by
  refine ⟨fun h => by simp [calculatePerformanceScore, h],
    fun h => by simp [calculatePerformanceScore, h], fun h => ?_⟩
  simp [calculatePerformanceScore, h]
  norm_num [calculateMetricScore, DEFAULT_THRESHOLDS]

/-- Witness for C2 on a metrics record with no TTI and no first-input data. -/
theorem C2_witness :
    ((calculatePerformanceScore
        { timeToFirstFrameMs := 200, mountStartTimeMs := 0, firstFrameTimeMs := 200 }
        DEFAULT_THRESHOLDS DEFAULT_WEIGHTS).breakdown.tti =
      calculateMetricScore 200 DEFAULT_THRESHOLDS.tti) ∧
    ((calculatePerformanceScore
        { timeToFirstFrameMs := 200, mountStartTimeMs := 0, firstFrameTimeMs := 200 }
        DEFAULT_THRESHOLDS DEFAULT_WEIGHTS).breakdown.fid =
      calculateMetricScore 0 DEFAULT_THRESHOLDS.fid) ∧
    ((calculatePerformanceScore
        { timeToFirstFrameMs := 200, mountStartTimeMs := 0, firstFrameTimeMs := 200 }).breakdown.fid
      = 100) :=
  ⟨(C2_calculatePerformanceScore_defaults _ _ _).1 rfl,
   (C2_calculatePerformanceScore_defaults _ _ _).2.1 rfl,
   (C2_calculatePerformanceScore_defaults _ DEFAULT_THRESHOLDS DEFAULT_WEIGHTS).2.2 rfl⟩

/-- The example metrics `{ttff: 100, tti: 200, fid: 10}` of claim C3. -/
def exampleMetricsFast : PerformanceMetrics :=
  { timeToFirstFrameMs := 100, timeToInteractiveMs := some 200,
    firstInputDelay := some
      { firstInputDelayMs := 10, firstInputTimeMs := 0,
        inputProcessingStartTimeMs := 10, inputType := .touch },
    mountStartTimeMs := 0, firstFrameTimeMs := 100 }

/-- The example metrics `{ttff: 1000, tti: 2000, fid: 200}` of claim C3. -/
def exampleMetricsSlow : PerformanceMetrics :=
  { timeToFirstFrameMs := 1000, timeToInteractiveMs := some 2000,
    firstInputDelay := some
      { firstInputDelayMs := 200, firstInputTimeMs := 0,
        inputProcessingStartTimeMs := 200, inputType := .touch },
    mountStartTimeMs := 0, firstFrameTimeMs := 1000 }

/-- Claim C3: `calculatePerformanceScore` computes
`overall = round(ttffScore*w.ttff + ttiScore*w.tti + fidScore*w.fid)` and
`category = getScoreCategory overall`; with the default configuration the fast
example metrics score 100/100/100, overall 100, excellent, and the slow
example metrics score 0/0/0, overall 0, poor. -/
theorem C3_calculatePerformanceScore_overall (m : PerformanceMetrics)
    (th : PerformanceThresholds) (w : MetricWeights) :
    ((calculatePerformanceScore m th w).overall =
      ((jsRound ((calculatePerformanceScore m th w).breakdown.ttff * w.ttff +
        (calculatePerformanceScore m th w).breakdown.tti * w.tti +
        (calculatePerformanceScore m th w).breakdown.fid * w.fid) : ℤ) : ℚ)) ∧
    ((calculatePerformanceScore m th w).category =
      getScoreCategory (calculatePerformanceScore m th w).overall) ∧
    ((calculatePerformanceScore exampleMetricsFast).breakdown.ttff = 100 ∧
      (calculatePerformanceScore exampleMetricsFast).breakdown.tti = 100 ∧
      (calculatePerformanceScore exampleMetricsFast).breakdown.fid = 100 ∧
      (calculatePerformanceScore exampleMetricsFast).overall = 100 ∧
      (calculatePerformanceScore exampleMetricsFast).category = .excellent) ∧
    ((calculatePerformanceScore exampleMetricsSlow).breakdown.ttff = 0 ∧
      (calculatePerformanceScore exampleMetricsSlow).breakdown.tti = 0 ∧
      (calculatePerformanceScore exampleMetricsSlow).breakdown.fid = 0 ∧
      (calculatePerformanceScore exampleMetricsSlow).overall = 0 ∧
      (calculatePerformanceScore exampleMetricsSlow).category = .poor) := by
  refine ⟨rfl, rfl, ?_, ?_⟩ <;>
    norm_num [calculatePerformanceScore, calculateMetricScore, getScoreCategory,
      exampleMetricsFast, exampleMetricsSlow, DEFAULT_THRESHOLDS, DEFAULT_WEIGHTS,
      jsRound_eq_floor]

/-- Claim C9: with `good < poor`, `calculateMetricScore` is monotonically
non-increasing in the value, and the midpoint `good + (poor - good)/2`
scores exactly 50. -/
theorem C9_calculateMetricScore_monotone (v1 v2 : ℚ) (t : MetricThresholds)
    (h : t.good < t.poor) (hv : v1 ≤ v2) :
    calculateMetricScore v2 t ≤ calculateMetricScore v1 t ∧
    calculateMetricScore (t.good + (t.poor - t.good) / 2) t = 50 := by
  constructor
  · by_cases h1 : v1 ≤ t.good
    · rw [show calculateMetricScore v1 t = 100 from by simp [calculateMetricScore, h1]]
      exact calculateMetricScore_le_100 v2 t
    · by_cases h2 : t.poor ≤ v2
      · have hg2 : ¬v2 ≤ t.good := by push_neg at h1 ⊢; linarith
        rw [show calculateMetricScore v2 t = 0 from by simp [calculateMetricScore, hg2, h2]]
        exact calculateMetricScore_nonneg v1 t
      · have h1' : t.good < v1 := not_le.1 h1
        have h2' : v2 < t.poor := not_le.1 h2
        have hg2 : ¬v2 ≤ t.good := by push_neg; linarith
        have hp1 : ¬t.poor ≤ v1 := by push_neg; linarith
        simp only [calculateMetricScore, if_neg h1, if_neg hg2, if_neg hp1, if_neg h2]
        have hr : 0 < t.poor - t.good := by linarith
        have hd : (v1 - t.good) / (t.poor - t.good) ≤ (v2 - t.good) / (t.poor - t.good) :=
          (div_le_div_iff_of_pos_right hr).2 (by linarith)
        exact_mod_cast jsRound_mono (by linarith)
  · have hr : 0 < t.poor - t.good := by linarith
    have hg : ¬t.good + (t.poor - t.good) / 2 ≤ t.good := by push_neg; linarith
    have hp : ¬t.poor ≤ t.good + (t.poor - t.good) / 2 := by push_neg; linarith
    simp only [calculateMetricScore, if_neg hg, if_neg hp]
    have hq : 100 - (t.good + (t.poor - t.good) / 2 - t.good) / (t.poor - t.good) * 100
        = 50 := by
      field_simp
      ring
    rw [hq]
    norm_num [jsRound_eq_floor]

/-- Witness for C9 at `v1 = 400 ≤ v2 = 600`, thresholds `{good := 300, poor := 800}`. -/
theorem C9_witness :
    calculateMetricScore 600 { good := 300, poor := 800 } ≤
      calculateMetricScore 400 { good := 300, poor := 800 } ∧
    calculateMetricScore ((300 : ℚ) + (800 - 300) / 2) { good := 300, poor := 800 } = 50 :=
  C9_calculateMetricScore_monotone 400 600 { good := 300, poor := 800 }
    (by norm_num) (by norm_num)

/-! ## Lifecycle tracker (`usePerformanceMeasurement.ts`)

The mutable refs of the hook become the fields of `TrackerState`; its callbacks
(the `useEffect` first-frame microtask, `markInteractive`, the PanResponder
gesture handler with its measurement microtask, the FID timeout callback)
become pure state transformers that also return the list of user callbacks
invoked.  JavaScript `||` on possibly-absent numbers (falsy coalescing, where
both `undefined` and `0` are falsy) is `jsOrQ` / `jsOrNum`; on object
references it is `jsOrF`. -/

/-- JavaScript truthiness of a possibly-absent number: absent and `0` are falsy. -/
def jsTruthy (o : Option ℚ) : Bool :=
  match o with
  | none => false
  | some x => x != 0

/-- JavaScript `a || b` on possibly-absent numbers. -/
def jsOrQ (a b : Option ℚ) : Option ℚ := if jsTruthy a then a else b

/-- JavaScript `a || d` where `a` is a possibly-absent number and `d` a number. -/
def jsOrNum (o : Option ℚ) (d : ℚ) : ℚ :=
  match o with
  | none => d
  | some x => if x = 0 then d else x

/-- JavaScript `a || b` on possibly-absent object references (objects are truthy). -/
def jsOrF (a b : Option FirstInputDelayMetrics) : Option FirstInputDelayMetrics :=
  match a with
  | some x => some x
  | none => b

/-- The user-supplied observers the tracker can invoke
(`onMetricsReady`, `onInteractive`, `onReport`). -/
inductive CallbackEvent where
  | onMetricsReady (m : PerformanceMetrics)
  | onInteractive (m : PerformanceMetrics)
  | onReport (m : PerformanceMetrics) (s : PerformanceScore)
deriving Repr, DecidableEq

/-- The mutable refs of one `usePerformanceMeasurement` instance:
`mountStartTimeMsRef`, `firstFrameTimeMsRef`, `interactiveTimeMsRef`,
`metricsRef`, `hasLoggedRef`, `firstInputDelayRef`, `hasRecordedFirstInputRef`,
and whether `fidTimeoutRef` holds an armed timeout. -/
structure TrackerState where
  mountStartTimeMs : ℚ
  firstFrameTimeMs : Option ℚ := none
  interactiveTimeMs : Option ℚ := none
  metricsRef : Option PerformanceMetrics := none
  hasLogged : Bool := false
  firstInputDelayRef : Option FirstInputDelayMetrics := none
  hasRecordedFirstInput : Bool := false
  fidTimeoutPending : Bool := false
deriving Repr, DecidableEq

/-- `logFinalMetrics` from `usePerformanceMeasurement.ts`: returns early if
already logged or no metrics yet; otherwise sets the logged guard, clears the
pending timeout, reconciles TTI and FID data into the final metrics, and
invokes `onReport` with the final metrics and score. -/
def logFinalMetrics (s : TrackerState) : TrackerState × List CallbackEvent :=
  match s.metricsRef with
  | none => (s, [])
  | some m =>
    if s.hasLogged then (s, [])
    else
      let finalMetrics : PerformanceMetrics :=
        { m with
          timeToInteractiveMs :=
            jsOrQ m.timeToInteractiveMs
              (if jsTruthy s.interactiveTimeMs then
                some (s.interactiveTimeMs.getD 0 - s.mountStartTimeMs)
              else none),
          interactiveTimeMs := jsOrQ (jsOrQ m.interactiveTimeMs s.interactiveTimeMs) none,
          firstInputDelay := jsOrF s.firstInputDelayRef m.firstInputDelay }
      ({ s with
          hasLogged := true,
          fidTimeoutPending := false,
          metricsRef := some finalMetrics },
        [.onReport finalMetrics (calculatePerformanceScore finalMetrics)])

/-- `measureFirstInputDelay` from `usePerformanceMeasurement.ts`, together
with its measurement microtask (the two `Date.now()` readings become the
`inputTime` and `processingStartTime` arguments).  Returns the new state, the
callbacks invoked, and the boolean the gesture handler hands back to the
`PanResponder` predicate. -/
def measureFirstInputDelay (s : TrackerState) (inputType : InputType)
    (inputTime processingStartTime : ℚ) :
    (TrackerState × List CallbackEvent) × Bool :=
  if s.hasRecordedFirstInput then ((s, []), false)
  else
    let fidMetrics : FirstInputDelayMetrics :=
      { firstInputDelayMs := processingStartTime - inputTime
        firstInputTimeMs := inputTime
        inputProcessingStartTimeMs := processingStartTime
        inputType := inputType }
    let s1 : TrackerState :=
      { s with hasRecordedFirstInput := true, firstInputDelayRef := some fidMetrics }
    match s1.metricsRef with
    | none => (logFinalMetrics s1, false)
    | some m =>
      let updatedMetrics : PerformanceMetrics := { m with firstInputDelay := some fidMetrics }
      let s2 : TrackerState := { s1 with metricsRef := some updatedMetrics }
      let p := logFinalMetrics s2
      ((p.1, .onMetricsReady updatedMetrics :: p.2), false)

/-- The first-frame `useEffect` of `usePerformanceMeasurement.ts` together
with its deferred microtask: stamps `firstFrameTimeMs` if not yet set, then
overwrites `metricsRef` with the initial metrics and fires `onMetricsReady`. -/
def captureFirstFrame (s : TrackerState) (now : ℚ) : TrackerState × List CallbackEvent :=
  let firstFrame := s.firstFrameTimeMs.getD now
  let initialMetrics : PerformanceMetrics :=
    { timeToFirstFrameMs := firstFrame - s.mountStartTimeMs
      mountStartTimeMs := s.mountStartTimeMs
      firstFrameTimeMs := firstFrame }
  ({ s with firstFrameTimeMs := some firstFrame, metricsRef := some initialMetrics },
    [.onMetricsReady initialMetrics])

/-- `markInteractive` from `usePerformanceMeasurement.ts`: a no-op when the
interactive timestamp is already set; otherwise stamps it, merges the updated
metrics (defaulting the first-frame fields with JavaScript `||`), fires
`onInteractive`, and arms the FID timeout when not logged and not armed. -/
def markInteractive (s : TrackerState) (now : ℚ) : TrackerState × List CallbackEvent :=
  match s.interactiveTimeMs with
  | some _ => (s, [])
  | none =>
    let updatedMetrics : PerformanceMetrics :=
      { timeToFirstFrameMs := jsOrNum (s.metricsRef.map (·.timeToFirstFrameMs)) 0
        timeToInteractiveMs := some (now - s.mountStartTimeMs)
        firstInputDelay := jsOrF s.firstInputDelayRef (s.metricsRef.bind (·.firstInputDelay))
        mountStartTimeMs := s.mountStartTimeMs
        firstFrameTimeMs := jsOrNum (s.metricsRef.map (·.firstFrameTimeMs)) 0
        interactiveTimeMs := some now }
    let s1 : TrackerState :=
      { s with interactiveTimeMs := some now, metricsRef := some updatedMetrics }
    let s2 : TrackerState :=
      if !s1.hasLogged && !s1.fidTimeoutPending then { s1 with fidTimeoutPending := true }
      else s1
    (s2, [.onInteractive updatedMetrics])

/-- The FID timeout callback: when an armed timeout fires it runs
`logFinalMetrics` (which clears the pending-timeout ref when it acts). -/
def fidTimeoutFire (s : TrackerState) : TrackerState × List CallbackEvent :=
  if s.fidTimeoutPending then logFinalMetrics s else (s, [])

/-- The lifecycle events that can reach one tracker instance. -/
inductive TrackerEvent where
  | frameCapture (now : ℚ)
  | markInteractive (now : ℚ)
  | inputEvent (inputType : InputType) (inputTime processingStartTime : ℚ)
  | timeoutFire
deriving Repr, DecidableEq

/-- One step of the tracker: dispatch an event to its handler. -/
def trackerStep (s : TrackerState) : TrackerEvent → TrackerState × List CallbackEvent
  | .frameCapture now => captureFirstFrame s now
  | .markInteractive now => markInteractive s now
  | .inputEvent ty tIn tProc => (measureFirstInputDelay s ty tIn tProc).1
  | .timeoutFire => fidTimeoutFire s

/-- Run a list of events (a whole lifecycle), concatenating the callbacks. -/
def trackerRun (s : TrackerState) : List TrackerEvent → TrackerState × List CallbackEvent
  | [] => (s, [])
  | e :: es =>
    let p := trackerStep s e
    let q := trackerRun p.1 es
    (q.1, p.2 ++ q.2)

/-- The state at mount time: only `mountStartTimeMs` is stamped. -/
def initState (mount : ℚ) : TrackerState := { mountStartTimeMs := mount }

/-- How many times `onInteractive` was invoked. -/
def countInteractive (l : List CallbackEvent) : ℕ :=
  l.countP fun e => match e with | .onInteractive _ => true | _ => false

/-- How many times `onReport` was invoked. -/
def countReport (l : List CallbackEvent) : ℕ :=
  l.countP fun e => match e with | .onReport _ _ => true | _ => false

/-! ### Helper lemmas about the tracker operations -/

theorem countInteractive_nil : countInteractive [] = 0 := rfl

theorem countReport_nil : countReport [] = 0 := rfl

theorem countInteractive_append (a b : List CallbackEvent) :
    countInteractive (a ++ b) = countInteractive a + countInteractive b :=
  List.countP_append _ _ _

theorem countReport_append (a b : List CallbackEvent) :
    countReport (a ++ b) = countReport a + countReport b :=
  List.countP_append _ _ _

theorem countInteractive_cons_ready (m : PerformanceMetrics) (l : List CallbackEvent) :
    countInteractive (.onMetricsReady m :: l) = countInteractive l := by
  simp [countInteractive, List.countP_cons]

theorem countReport_cons_ready (m : PerformanceMetrics) (l : List CallbackEvent) :
    countReport (.onMetricsReady m :: l) = countReport l := by
  simp [countReport, List.countP_cons]

/-- `logFinalMetrics` only touches `hasLogged`, `fidTimeoutPending` and
`metricsRef`; every other ref is preserved. -/
theorem logFinalMetrics_pres (s : TrackerState) :
    (logFinalMetrics s).1.interactiveTimeMs = s.interactiveTimeMs ∧
    (logFinalMetrics s).1.firstInputDelayRef = s.firstInputDelayRef ∧
    (logFinalMetrics s).1.hasRecordedFirstInput = s.hasRecordedFirstInput ∧
    (logFinalMetrics s).1.mountStartTimeMs = s.mountStartTimeMs ∧
    (logFinalMetrics s).1.firstFrameTimeMs = s.firstFrameTimeMs := by
  unfold logFinalMetrics
  rcases h : s.metricsRef with _ | m <;> simp [h]
  split <;> simp

/-- `logFinalMetrics` never invokes `onInteractive` or `onMetricsReady`. -/
theorem logFinalMetrics_countInteractive (s : TrackerState) :
    countInteractive (logFinalMetrics s).2 = 0 := by
  unfold logFinalMetrics
  rcases h : s.metricsRef with _ | m <;> simp [h, countInteractive]
  split <;> simp [countInteractive, List.countP_cons]

/-- When the logged guard is already set, `logFinalMetrics` is a no-op. -/
theorem logFinalMetrics_of_hasLogged (s : TrackerState) (h : s.hasLogged = true) :
    logFinalMetrics s = (s, []) := by
  unfold logFinalMetrics
  rcases hm : s.metricsRef with _ | m <;> simp [hm, h]

/-- `logFinalMetrics` invokes `onReport` at most once. -/
theorem logFinalMetrics_countReport_le (s : TrackerState) :
    countReport (logFinalMetrics s).2 ≤ 1 := by
  unfold logFinalMetrics
  rcases h : s.metricsRef with _ | m <;> simp [h, countReport]
  split <;> simp [countReport, List.countP_cons]

/-- When the logged guard is already set, `logFinalMetrics` reports nothing. -/
theorem logFinalMetrics_countReport_of_logged (s : TrackerState)
    (h : s.hasLogged = true) : countReport (logFinalMetrics s).2 = 0 := by
  rw [logFinalMetrics_of_hasLogged s h]
  rfl

/-- The logged guard never goes from set back to unset. -/
theorem logFinalMetrics_hasLogged_mono (s : TrackerState) (h : s.hasLogged = true) :
    (logFinalMetrics s).1.hasLogged = true := by
  rw [logFinalMetrics_of_hasLogged s h]
  exact h

/-- If `logFinalMetrics` left the logged guard unset, it reported nothing. -/
theorem logFinalMetrics_report_of_not_logged (s : TrackerState)
    (h : (logFinalMetrics s).1.hasLogged = false) :
    countReport (logFinalMetrics s).2 = 0 := by
  unfold logFinalMetrics at h ⊢
  rcases hm : s.metricsRef with _ | m <;> simp [hm] at h ⊢
  · rfl
  · split at h <;> simp_all [countReport]

/-- The finalization behavior of claim C7: when not yet logged and the metrics
record exists, `logFinalMetrics` reports exactly once, cancels the pending
timeout and sets the logged guard. -/
theorem logFinalMetrics_acts (s : TrackerState) (m : PerformanceMetrics)
    (h : s.hasLogged = false) (hm : s.metricsRef = some m) :
    countReport (logFinalMetrics s).2 = 1 ∧
    (logFinalMetrics s).1.fidTimeoutPending = false ∧
    (logFinalMetrics s).1.hasLogged = true := by
  unfold logFinalMetrics
  simp [hm, h, countReport, List.countP_cons]

/-- `captureFirstFrame` only touches `firstFrameTimeMs` and `metricsRef`. -/
theorem captureFirstFrame_pres (s : TrackerState) (now : ℚ) :
    (captureFirstFrame s now).1.interactiveTimeMs = s.interactiveTimeMs ∧
    (captureFirstFrame s now).1.hasLogged = s.hasLogged ∧
    (captureFirstFrame s now).1.firstInputDelayRef = s.firstInputDelayRef ∧
    (captureFirstFrame s now).1.hasRecordedFirstInput = s.hasRecordedFirstInput ∧
    (captureFirstFrame s now).1.fidTimeoutPending = s.fidTimeoutPending := by
  simp [captureFirstFrame]

/-- `captureFirstFrame` only fires `onMetricsReady`. -/
theorem captureFirstFrame_counts (s : TrackerState) (now : ℚ) :
    countInteractive (captureFirstFrame s now).2 = 0 ∧
    countReport (captureFirstFrame s now).2 = 0 := by
  simp [captureFirstFrame, countInteractive, countReport, List.countP_cons]

/-- The guard of claim C6: once the interactive timestamp is set, `markInteractive`
is a no-op (state unchanged, no callback invoked). -/
theorem markInteractive_of_marked (s : TrackerState) (t now : ℚ)
    (h : s.interactiveTimeMs = some t) :
    markInteractive s now = (s, []) := by
  unfold markInteractive
  simp [h]

/-- `markInteractive` leaves the logged guard, the first-input refs and the
first-frame ref alone. -/
theorem markInteractive_pres (s : TrackerState) (now : ℚ) :
    (markInteractive s now).1.hasLogged = s.hasLogged ∧
    (markInteractive s now).1.firstInputDelayRef = s.firstInputDelayRef ∧
    (markInteractive s now).1.hasRecordedFirstInput = s.hasRecordedFirstInput ∧
    (markInteractive s now).1.firstFrameTimeMs = s.firstFrameTimeMs := by
  unfold markInteractive
  rcases h : s.interactiveTimeMs with _ | t <;> simp [h]
  split <;> simp

/-- `markInteractive` fires `onInteractive` exactly once when it acts, and
stamps the interactive timestamp. -/
theorem markInteractive_acts (s : TrackerState) (now : ℚ)
    (h : s.interactiveTimeMs = none) :
    countInteractive (markInteractive s now).2 = 1 ∧
    (markInteractive s now).1.interactiveTimeMs = some now := by
  unfold markInteractive
  simp [h, countInteractive, List.countP_cons]
  split <;> simp

/-- `markInteractive` never fires `onReport`. -/
theorem markInteractive_countReport (s : TrackerState) (now : ℚ) :
    countReport (markInteractive s now).2 = 0 := by
  unfold markInteractive
  rcases h : s.interactiveTimeMs with _ | t <;>
    simp [h, countReport, List.countP_cons]

/-- `fidTimeoutFire` preserves everything `logFinalMetrics` preserves. -/
theorem fidTimeoutFire_pres (s : TrackerState) :
    (fidTimeoutFire s).1.interactiveTimeMs = s.interactiveTimeMs ∧
    (fidTimeoutFire s).1.firstInputDelayRef = s.firstInputDelayRef ∧
    (fidTimeoutFire s).1.hasRecordedFirstInput = s.hasRecordedFirstInput := by
  unfold fidTimeoutFire
  split
  · exact ⟨(logFinalMetrics_pres s).1, (logFinalMetrics_pres s).2.1,
      (logFinalMetrics_pres s).2.2.1⟩
  · exact ⟨rfl, rfl, rfl⟩

/-- The gesture handler of `measureFirstInputDelay` always returns `false`:
the measurement never claims the gesture. -/
theorem measureFirstInputDelay_returns_false (s : TrackerState) (ty : InputType)
    (tIn tProc : ℚ) : (measureFirstInputDelay s ty tIn tProc).2 = false := by
  unfold measureFirstInputDelay
  split
  · rfl
  · rcases h : s.metricsRef with _ | m <;> simp [h]

/-- Once the first-input guard is set, `measureFirstInputDelay` is a no-op. -/
theorem measureFirstInputDelay_of_recorded (s : TrackerState) (ty : InputType)
    (tIn tProc : ℚ) (h : s.hasRecordedFirstInput = true) :
    measureFirstInputDelay s ty tIn tProc = ((s, []), false) := by
  unfold measureFirstInputDelay
  simp [h]

/-- `measureFirstInputDelay` preserves the interactive timestamp. -/
theorem measureFirstInputDelay_pres (s : TrackerState) (ty : InputType)
    (tIn tProc : ℚ) :
    (measureFirstInputDelay s ty tIn tProc).1.1.interactiveTimeMs = s.interactiveTimeMs := by
  unfold measureFirstInputDelay
  split
  · rfl
  · rcases h : s.metricsRef with _ | m <;> simp [h]
    · exact (logFinalMetrics_pres _).1
    · exact (logFinalMetrics_pres _).1

/-- `measureFirstInputDelay` never fires `onInteractive`. -/
theorem measureFirstInputDelay_countInteractive (s : TrackerState) (ty : InputType)
    (tIn tProc : ℚ) :
    countInteractive (measureFirstInputDelay s ty tIn tProc).1.2 = 0 := by
  unfold measureFirstInputDelay
  split
  · rfl
  · rcases h : s.metricsRef with _ | m <;> simp [h, countInteractive_cons_ready]
    · exact logFinalMetrics_countInteractive _
    · exact logFinalMetrics_countInteractive _

/-- The logged guard is monotone under `measureFirstInputDelay`. -/
theorem measureFirstInputDelay_hasLogged_mono (s : TrackerState) (ty : InputType)
    (tIn tProc : ℚ) (h : s.hasLogged = true) :
    (measureFirstInputDelay s ty tIn tProc).1.1.hasLogged = true := by
  unfold measureFirstInputDelay
  split
  · exact h
  · rcases hm : s.metricsRef with _ | m <;> simp [hm]
    · exact logFinalMetrics_hasLogged_mono _ h
    · exact logFinalMetrics_hasLogged_mono _ h

/-- When already logged, `measureFirstInputDelay` fires no `onReport`. -/
theorem measureFirstInputDelay_countReport_of_logged (s : TrackerState)
    (ty : InputType) (tIn tProc : ℚ) (h : s.hasLogged = true) :
    countReport (measureFirstInputDelay s ty tIn tProc).1.2 = 0 := by
  unfold measureFirstInputDelay
  split
  · rfl
  · rcases hm : s.metricsRef with _ | m <;> simp [hm, countReport_cons_ready]
    · exact logFinalMetrics_countReport_of_logged _ h
    · exact logFinalMetrics_countReport_of_logged _ h

/-- `measureFirstInputDelay` fires `onReport` at most once. -/
theorem measureFirstInputDelay_countReport_le (s : TrackerState)
    (ty : InputType) (tIn tProc : ℚ) :
    countReport (measureFirstInputDelay s ty tIn tProc).1.2 ≤ 1 := by
  unfold measureFirstInputDelay
  split
  · exact Nat.zero_le 1
  · rcases hm : s.metricsRef with _ | m <;> simp [hm, countReport_cons_ready]
    · exact logFinalMetrics_countReport_le _
    · exact logFinalMetrics_countReport_le _

/-- If `measureFirstInputDelay` left the logged guard unset, it reported nothing. -/
theorem measureFirstInputDelay_report_of_not_logged (s : TrackerState)
    (ty : InputType) (tIn tProc : ℚ)
    (h : (measureFirstInputDelay s ty tIn tProc).1.1.hasLogged = false) :
    countReport (measureFirstInputDelay s ty tIn tProc).1.2 = 0 := by
  unfold measureFirstInputDelay at h ⊢
  split at h <;> rename_i hrec
  · simp [hrec, countReport_nil]
  · rcases hm : s.metricsRef with _ | m <;>
      simp [hrec, hm, countReport_cons_ready] at h ⊢
    · exact logFinalMetrics_report_of_not_logged _ h
    · exact logFinalMetrics_report_of_not_logged _ h

/-! ### Step-level lemmas -/

/-- Once the interactive timestamp is set, no step changes it and no step
fires `onInteractive`. -/
theorem trackerStep_interactive_pres (s : TrackerState) (e : TrackerEvent) (t : ℚ)
    (h : s.interactiveTimeMs = some t) :
    (trackerStep s e).1.interactiveTimeMs = some t ∧
    countInteractive (trackerStep s e).2 = 0 := by
  cases e with
  | frameCapture now =>
    exact ⟨(captureFirstFrame_pres s now).1.trans h, (captureFirstFrame_counts s now).1⟩
  | markInteractive now =>
    rw [trackerStep, markInteractive_of_marked s t now h]
    exact ⟨h, rfl⟩
  | inputEvent ty tIn tProc =>
    exact ⟨(measureFirstInputDelay_pres s ty tIn tProc).trans h,
      measureFirstInputDelay_countInteractive s ty tIn tProc⟩
  | timeoutFire =>
    refine ⟨(fidTimeoutFire_pres s).1.trans h, ?_⟩
    rw [trackerStep, fidTimeoutFire]
    split
    · exact logFinalMetrics_countInteractive s
    · rfl

/-- A single step fires `onInteractive` at most once. -/
theorem trackerStep_countInteractive_le (s : TrackerState) (e : TrackerEvent) :
    countInteractive (trackerStep s e).2 ≤ 1 := by
  cases e with
  | frameCapture now => exact (captureFirstFrame_counts s now).1.le.trans (by norm_num)
  | markInteractive now =>
    rcases h : s.interactiveTimeMs with _ | t
    · exact (markInteractive_acts s now h).1.le
    · rw [trackerStep, markInteractive_of_marked s t now h]
      exact Nat.zero_le 1
  | inputEvent ty tIn tProc =>
    exact (measureFirstInputDelay_countInteractive s ty tIn tProc).le.trans (by norm_num)
  | timeoutFire =>
    rw [trackerStep, fidTimeoutFire]
    split
    · exact (logFinalMetrics_countInteractive s).le.trans (by norm_num)
    · exact Nat.zero_le 1

/-- If after a step the interactive timestamp is still unset, the step did not
fire `onInteractive`. -/
theorem trackerStep_interactive_none (s : TrackerState) (e : TrackerEvent)
    (h : (trackerStep s e).1.interactiveTimeMs = none) :
    countInteractive (trackerStep s e).2 = 0 := by
  cases e with
  | frameCapture now => exact (captureFirstFrame_counts s now).1
  | markInteractive now =>
    rcases hi : s.interactiveTimeMs with _ | t
    · exact absurd ((markInteractive_acts s now hi).2.symm.trans h) (by simp)
    · rw [trackerStep, markInteractive_of_marked s t now hi]
      rfl
  | inputEvent ty tIn tProc => exact measureFirstInputDelay_countInteractive s ty tIn tProc
  | timeoutFire =>
    rw [trackerStep, fidTimeoutFire]
    split
    · exact logFinalMetrics_countInteractive s
    · rfl

/-- The logged guard is monotone under every step. -/
theorem trackerStep_hasLogged_mono (s : TrackerState) (e : TrackerEvent)
    (h : s.hasLogged = true) : (trackerStep s e).1.hasLogged = true := by
  cases e with
  | frameCapture now => exact (captureFirstFrame_pres s now).2.1.trans h
  | markInteractive now => exact (markInteractive_pres s now).1.trans h
  | inputEvent ty tIn tProc => exact measureFirstInputDelay_hasLogged_mono s ty tIn tProc h
  | timeoutFire =>
    rw [trackerStep, fidTimeoutFire]
    split
    · exact logFinalMetrics_hasLogged_mono s h
    · exact h

/-- A single step fires `onReport` at most once. -/
theorem trackerStep_countReport_le (s : TrackerState) (e : TrackerEvent) :
    countReport (trackerStep s e).2 ≤ 1 := by
  cases e with
  | frameCapture now => exact (captureFirstFrame_counts s now).2.le.trans (by norm_num)
  | markInteractive now => exact (markInteractive_countReport s now).le.trans (by norm_num)
  | inputEvent ty tIn tProc => exact measureFirstInputDelay_countReport_le s ty tIn tProc
  | timeoutFire =>
    rw [trackerStep, fidTimeoutFire]
    split
    · exact logFinalMetrics_countReport_le s
    · exact Nat.zero_le 1

/-- Once logged, a step fires no further `onReport`. -/
theorem trackerStep_countReport_of_logged (s : TrackerState) (e : TrackerEvent)
    (h : s.hasLogged = true) : countReport (trackerStep s e).2 = 0 := by
  cases e with
  | frameCapture now => exact (captureFirstFrame_counts s now).2
  | markInteractive now => exact markInteractive_countReport s now
  | inputEvent ty tIn tProc => exact measureFirstInputDelay_countReport_of_logged s ty tIn tProc h
  | timeoutFire =>
    rw [trackerStep, fidTimeoutFire]
    split
    · exact logFinalMetrics_countReport_of_logged s h
    · rfl

/-- If after a step the logged guard is still unset, the step did not report. -/
theorem trackerStep_report_of_not_logged (s : TrackerState) (e : TrackerEvent)
    (h : (trackerStep s e).1.hasLogged = false) :
    countReport (trackerStep s e).2 = 0 := by
  cases e with
  | frameCapture now => exact (captureFirstFrame_counts s now).2
  | markInteractive now => exact markInteractive_countReport s now
  | inputEvent ty tIn tProc => exact measureFirstInputDelay_report_of_not_logged s ty tIn tProc h
  | timeoutFire =>
    rw [trackerStep, fidTimeoutFire] at h ⊢
    split at h <;> rename_i hp
    · rw [if_pos hp]
      exact logFinalMetrics_report_of_not_logged s h
    · rw [if_neg hp]
      rfl

/-! ### Run-level lemmas -/

/-- Over any event list, `onInteractive` fires at most once, and not at all
when the interactive timestamp is already set. -/
theorem trackerRun_countInteractive (evs : List TrackerEvent) :
    ∀ s : TrackerState,
      countInteractive (trackerRun s evs).2 ≤ 1 ∧
      (∀ t : ℚ, s.interactiveTimeMs = some t →
        countInteractive (trackerRun s evs).2 = 0) := by
  induction evs with
  | nil => exact fun s => ⟨Nat.zero_le 1, fun t ht => rfl⟩
  | cons e es ih =>
    intro s
    have hsplit : countInteractive (trackerRun s (e :: es)).2 =
        countInteractive (trackerStep s e).2 +
          countInteractive (trackerRun (trackerStep s e).1 es).2 := by
      simp only [trackerRun]
      exact countInteractive_append _ _
    constructor
    · by_cases h1 : countInteractive (trackerStep s e).2 = 0
      · have := (ih (trackerStep s e).1).1
        omega
      · have hle := trackerStep_countInteractive_le s e
        have hne : (trackerStep s e).1.interactiveTimeMs ≠ none := fun hnone =>
          h1 (trackerStep_interactive_none s e hnone)
        rcases ho : (trackerStep s e).1.interactiveTimeMs with _ | t
        · exact absurd ho hne
        · have := (ih (trackerStep s e).1).2 t ho
          omega
    · intro t ht
      have hstep := trackerStep_interactive_pres s e t ht
      have := (ih (trackerStep s e).1).2 t hstep.1
      omega

/-- Over any event list, `onReport` fires at most once, and not at all
when the logged guard is already set. -/
theorem trackerRun_countReport (evs : List TrackerEvent) :
    ∀ s : TrackerState,
      countReport (trackerRun s evs).2 ≤ 1 ∧
      (s.hasLogged = true → countReport (trackerRun s evs).2 = 0) := by
  induction evs with
  | nil => exact fun s => ⟨Nat.zero_le 1, fun ht => rfl⟩
  | cons e es ih =>
    intro s
    have hsplit : countReport (trackerRun s (e :: es)).2 =
        countReport (trackerStep s e).2 +
          countReport (trackerRun (trackerStep s e).1 es).2 := by
      simp only [trackerRun]
      exact countReport_append _ _
    constructor
    · by_cases h1 : countReport (trackerStep s e).2 = 0
      · have := (ih (trackerStep s e).1).1
        omega
      · have hle := trackerStep_countReport_le s e
        have hlog : (trackerStep s e).1.hasLogged = true := by
          rcases hb : (trackerStep s e).1.hasLogged with _ | _
          · exact absurd (trackerStep_report_of_not_logged s e hb) h1
          · rfl
        have := (ih (trackerStep s e).1).2 hlog
        omega
    · intro ht
      have h0 := trackerStep_countReport_of_logged s e ht
      have := (ih (trackerStep s e).1).2 (trackerStep_hasLogged_mono s e ht)
      omega

/-- `measureFirstInputDelay` sets the first-input guard when it records. -/
theorem measureFirstInputDelay_sets_flag (s : TrackerState) (ty : InputType)
    (tIn tProc : ℚ) (h : s.hasRecordedFirstInput = false) :
    (measureFirstInputDelay s ty tIn tProc).1.1.hasRecordedFirstInput = true := by
  unfold measureFirstInputDelay
  simp only [h, Bool.false_eq_true, if_false]
  rcases hm : s.metricsRef with _ | m <;> simp [hm]
  · exact (logFinalMetrics_pres _).2.2.1
  · exact (logFinalMetrics_pres _).2.2.1

/-- A step either leaves the first-input guard set, or leaves both the guard
and the recorded first-input data unchanged. -/
theorem trackerStep_fid_cases (s : TrackerState) (e : TrackerEvent) :
    (trackerStep s e).1.hasRecordedFirstInput = true ∨
    ((trackerStep s e).1.hasRecordedFirstInput = s.hasRecordedFirstInput ∧
      (trackerStep s e).1.firstInputDelayRef = s.firstInputDelayRef) := by
  cases e with
  | frameCapture now =>
    exact .inr ⟨(captureFirstFrame_pres s now).2.2.2.1, (captureFirstFrame_pres s now).2.2.1⟩
  | markInteractive now =>
    exact .inr ⟨(markInteractive_pres s now).2.2.1, (markInteractive_pres s now).2.1⟩
  | inputEvent ty tIn tProc =>
    rcases hrec : s.hasRecordedFirstInput with _ | _
    · exact .inl (measureFirstInputDelay_sets_flag s ty tIn tProc hrec)
    · rw [trackerStep, measureFirstInputDelay_of_recorded s ty tIn tProc hrec]
      exact .inr ⟨hrec, rfl⟩
  | timeoutFire =>
    exact .inr ⟨(fidTimeoutFire_pres s).2.2, (fidTimeoutFire_pres s).2.1⟩

/-- Once the first-input guard is set, every step preserves the recorded
first-input data and the guard. -/
theorem trackerStep_fid_pres_of_recorded (s : TrackerState) (e : TrackerEvent)
    (h : s.hasRecordedFirstInput = true) :
    (trackerStep s e).1.firstInputDelayRef = s.firstInputDelayRef ∧
    (trackerStep s e).1.hasRecordedFirstInput = true := by
  cases e with
  | frameCapture now =>
    exact ⟨(captureFirstFrame_pres s now).2.2.1,
      (captureFirstFrame_pres s now).2.2.2.1.trans h⟩
  | markInteractive now =>
    exact ⟨(markInteractive_pres s now).2.1, (markInteractive_pres s now).2.2.1.trans h⟩
  | inputEvent ty tIn tProc =>
    rw [trackerStep, measureFirstInputDelay_of_recorded s ty tIn tProc h]
    exact ⟨rfl, h⟩
  | timeoutFire =>
    exact ⟨(fidTimeoutFire_pres s).2.1, (fidTimeoutFire_pres s).2.2.trans h⟩

/-- The guard-flag invariant: recorded first-input data implies the guard. -/
def FidInv (s : TrackerState) : Prop :=
  s.firstInputDelayRef ≠ none → s.hasRecordedFirstInput = true

/-- `FidInv` is preserved by every step. -/
theorem trackerStep_fidInv (s : TrackerState) (e : TrackerEvent) (h : FidInv s) :
    FidInv (trackerStep s e).1 := by
  intro href
  rcases trackerStep_fid_cases s e with hl | ⟨hf, hr⟩
  · exact hl
  · rw [hr] at href
    rw [hf]
    exact h href

/-- `FidInv` holds along any run. -/
theorem trackerRun_fidInv (evs : List TrackerEvent) :
    ∀ s : TrackerState, FidInv s → FidInv (trackerRun s evs).1 := by
  induction evs with
  | nil => exact fun s h => h
  | cons e es ih =>
    intro s h
    exact ih (trackerStep s e).1 (trackerStep_fidInv s e h)

/-! ### Claim theorems about the lifecycle tracker -/

/-- Claim C6: `markInteractive` is idempotent: once the interactive timestamp
is set every call is a no-op with no callbacks (state unchanged, so
`timeToInteractiveMs`, the interactive timestamp and the score are
untouched); over a whole lifecycle the `onInteractive` callback fires at most
once. -/
theorem C6_markInteractive_idempotent :
    (∀ (s : TrackerState) (t now : ℚ), s.interactiveTimeMs = some t →
      markInteractive s now = (s, [])) ∧
    (∀ (mount : ℚ) (evs : List TrackerEvent),
      countInteractive (trackerRun (initState mount) evs).2 ≤ 1) :=
  ⟨markInteractive_of_marked,
   fun _ evs => (trackerRun_countInteractive evs _).1⟩

/-- Witness for C6: a second `markInteractive` at time 7 after one at time 5
is a no-op, and a double-mark trace fires `onInteractive` at most once. -/
theorem C6_witness :
    markInteractive { mountStartTimeMs := 0, interactiveTimeMs := some 5 } 7 =
      ({ mountStartTimeMs := 0, interactiveTimeMs := some 5 }, []) ∧
    countInteractive
      (trackerRun (initState 0) [.markInteractive 5, .markInteractive 7]).2 ≤ 1 :=
  ⟨C6_markInteractive_idempotent.1 _ 5 7 rfl,
   C6_markInteractive_idempotent.2 0 [.markInteractive 5, .markInteractive 7]⟩

/-- Claim C7: finalization executes at most once per tracker instance: over
any event trace (inputs and timeouts in any order) `onReport` fires at most
once; and when a trigger reaches `logFinalMetrics` with the guard unset and
metrics present, it reports exactly once, cancels the pending timeout and
sets the guard. -/
theorem C7_finalization_once :
    (∀ (mount : ℚ) (evs : List TrackerEvent),
      countReport (trackerRun (initState mount) evs).2 ≤ 1) ∧
    (∀ (s : TrackerState) (m : PerformanceMetrics),
      s.hasLogged = false → s.metricsRef = some m →
      countReport (logFinalMetrics s).2 = 1 ∧
      (logFinalMetrics s).1.fidTimeoutPending = false ∧
      (logFinalMetrics s).1.hasLogged = true) :=
  ⟨fun _ evs => (trackerRun_countReport evs _).1, logFinalMetrics_acts⟩

/-- Witness for C7: a mount/frame/interactive/timeout trace reports at most
once, and a not-yet-logged state with metrics present finalizes exactly once,
cancelling its pending timeout. -/
theorem C7_witness :
    countReport
      (trackerRun (initState 0)
        [.frameCapture 1, .markInteractive 2, .timeoutFire]).2 ≤ 1 ∧
    (countReport
        (logFinalMetrics
          { mountStartTimeMs := 0,
            metricsRef := some
              { timeToFirstFrameMs := 100, mountStartTimeMs := 0, firstFrameTimeMs := 100 },
            fidTimeoutPending := true }).2 = 1 ∧
      (logFinalMetrics
          { mountStartTimeMs := 0,
            metricsRef := some
              { timeToFirstFrameMs := 100, mountStartTimeMs := 0, firstFrameTimeMs := 100 },
            fidTimeoutPending := true }).1.fidTimeoutPending = false ∧
      (logFinalMetrics
          { mountStartTimeMs := 0,
            metricsRef := some
              { timeToFirstFrameMs := 100, mountStartTimeMs := 0, firstFrameTimeMs := 100 },
            fidTimeoutPending := true }).1.hasLogged = true) :=
  ⟨C7_finalization_once.1 0 [.frameCapture 1, .markInteractive 2, .timeoutFire],
   C7_finalization_once.2 _
     { timeToFirstFrameMs := 100, mountStartTimeMs := 0, firstFrameTimeMs := 100 }
     rfl rfl⟩

/-- Claim C8: at most one first-input record per lifecycle: the gesture
handler always returns `false` (never consumes the gesture); once the guard
flag is set the handler is a complete no-op; and along any run from mount, a
recorded first-input value is never overwritten by any later event. -/
theorem C8_first_input_once :
    (∀ (s : TrackerState) (ty : InputType) (tIn tProc : ℚ),
      (measureFirstInputDelay s ty tIn tProc).2 = false) ∧
    (∀ (s : TrackerState) (ty : InputType) (tIn tProc : ℚ),
      s.hasRecordedFirstInput = true →
      measureFirstInputDelay s ty tIn tProc = ((s, []), false)) ∧
    (∀ (mount : ℚ) (evs : List TrackerEvent) (f : FirstInputDelayMetrics)
      (e : TrackerEvent),
      (trackerRun (initState mount) evs).1.firstInputDelayRef = some f →
      (trackerStep (trackerRun (initState mount) evs).1 e).1.firstInputDelayRef = some f) := by
  refine ⟨measureFirstInputDelay_returns_false, measureFirstInputDelay_of_recorded,
    fun mount evs f e href => ?_⟩
  have hinv : FidInv (trackerRun (initState mount) evs).1 :=
    trackerRun_fidInv evs (initState mount) (fun h => absurd rfl h)
  have hrec : (trackerRun (initState mount) evs).1.hasRecordedFirstInput = true :=
    hinv (by rw [href]; exact Option.some_ne_none f)
  rw [(trackerStep_fid_pres_of_recorded _ e hrec).1]
  exact href

/-- Witness for C8: concrete gesture on a fresh state returns `false`; with
the guard set the handler is a no-op; and a touch recorded in a concrete
trace survives a further touch event. -/
theorem C8_witness :
    (measureFirstInputDelay (initState 0) .touch 3 4).2 = false ∧
    measureFirstInputDelay
        { mountStartTimeMs := 0, hasRecordedFirstInput := true } .touch 3 4 =
      (({ mountStartTimeMs := 0, hasRecordedFirstInput := true }, []), false) ∧
    (trackerStep
        (trackerRun (initState 0) [.frameCapture 1, .inputEvent .touch 3 4]).1
        (.inputEvent .scroll 9 10)).1.firstInputDelayRef =
      some { firstInputDelayMs := 1, firstInputTimeMs := 3,
             inputProcessingStartTimeMs := 4, inputType := .touch } :=
  ⟨C8_first_input_once.1 (initState 0) .touch 3 4,
   C8_first_input_once.2.1 _ .touch 3 4 rfl,
   C8_first_input_once.2.2 0 [.frameCapture 1, .inputEvent .touch 3 4] _
     (.inputEvent .scroll 9 10)
     (by norm_num [trackerRun, trackerStep, captureFirstFrame, measureFirstInputDelay,
       logFinalMetrics, initState, jsOrQ, jsTruthy, jsOrF])⟩

/-- Claim C10: `markInteractive` invoked before the deferred first-frame
capture (so `metricsRef` is still empty) stores and passes to `onInteractive`
a metrics record whose `timeToFirstFrameMs` and `firstFrameTimeMs` are both 0
(the falsy-coalescing default), and the score computed from it at that moment
has TTFF sub-score 100. -/
theorem C10_markInteractive_before_frame (s : TrackerState) (now : ℚ)
    (hm : s.metricsRef = none) (hi : s.interactiveTimeMs = none) :
    ∃ mm : PerformanceMetrics,
      (markInteractive s now).1.metricsRef = some mm ∧
      (markInteractive s now).2 = [.onInteractive mm] ∧
      mm.timeToFirstFrameMs = 0 ∧ mm.firstFrameTimeMs = 0 ∧
      (calculatePerformanceScore mm).breakdown.ttff = 100 := by
  refine ⟨{ timeToFirstFrameMs := 0
            timeToInteractiveMs := some (now - s.mountStartTimeMs)
            firstInputDelay := jsOrF s.firstInputDelayRef none
            mountStartTimeMs := s.mountStartTimeMs
            firstFrameTimeMs := 0
            interactiveTimeMs := some now }, ?_, ?_, rfl, rfl, ?_⟩
  · unfold markInteractive
    simp only [hi, hm, Option.map_none, Option.bind_none]
    split <;> simp [jsOrNum]
  · unfold markInteractive
    simp [hi, hm, jsOrNum]
  · norm_num [calculatePerformanceScore, calculateMetricScore, DEFAULT_THRESHOLDS]

/-- Witness for C10 on a freshly mounted state at time 5. -/
theorem C10_witness :
    ∃ mm : PerformanceMetrics,
      (markInteractive (initState 0) 5).1.metricsRef = some mm ∧
      (markInteractive (initState 0) 5).2 = [.onInteractive mm] ∧
      mm.timeToFirstFrameMs = 0 ∧ mm.firstFrameTimeMs = 0 ∧
      (calculatePerformanceScore mm).breakdown.ttff = 100 :=
  C10_markInteractive_before_frame (initState 0) 5 rfl rfl
